import Mathlib

/-!
Shallow embedding of the muforge game session engine
(src/muforge/game/routers/api_game.py).

Python dicts are modelled as structures.  Inventory item dicts keep the
dual keys `qty`/`count` in sync at every write, and every read falls back
from `qty` to `count`, so a single `qty` field models both.  Randomness
(`random.randint`, `random.choice`) is passed in as explicit parameters.
All integer quantities occurring in the game are non-negative, so they
are modelled as `Nat`; Python's `max(0, a - b)` becomes truncated
subtraction `a - b`.
-/

namespace Muforge

/-- SCRAP_STACK_SIZE = 64 (api_game.py line 45). -/
def SCRAP_STACK_SIZE : Nat := 64

/-- MAX_INVENTORY_SLOTS = 6 (api_game.py line 248). -/
def MAX_INVENTORY_SLOTS : Nat := 6

/-- An inventory item dict: `{"name": ..., "qty": ..., "count": ...}`
(`qty` and `count` are kept in sync by all writers, so one field). -/
structure ItemStack where
  name : String
  qty : Nat
deriving DecidableEq

/-- The for-loop of `add_stacked_item` (lines 49-66): fill existing
partial stacks of `name` in order, skipping full stacks and other names,
returning early once the remaining quantity reaches 0.  Returns the
updated inventory prefix-walk and the leftover quantity. -/
def fillExisting (name : String) : List ItemStack → Nat → List ItemStack × Nat
  | [], qty => ([], qty)
  | s :: rest, qty =>
    if s.name = name ∧ s.qty < SCRAP_STACK_SIZE then
      let addNow := min (SCRAP_STACK_SIZE - s.qty) qty
      if qty - addNow = 0 then
        ({ s with qty := s.qty + addNow } :: rest, 0)
      else
        ({ s with qty := s.qty + addNow } :: (fillExisting name rest (qty - addNow)).1,
          (fillExisting name rest (qty - addNow)).2)
    else
      (s :: (fillExisting name rest qty).1, (fillExisting name rest qty).2)

/-- The while-loop of `add_stacked_item` (lines 69-72): open new stacks
of size `min(SCRAP_STACK_SIZE, qty)` until the quantity is exhausted. -/
def newStacks (name : String) (qty : Nat) : List ItemStack :=
  if qty = 0 then []
  else
    { name := name, qty := min SCRAP_STACK_SIZE qty } ::
      newStacks name (qty - min SCRAP_STACK_SIZE qty)
termination_by qty
decreasing_by
  simp [SCRAP_STACK_SIZE]
  omega

/-- Model of `add_stacked_item(inventory, name, qty)` (lines 47-72). -/
def add_stacked_item (inventory : List ItemStack) (name : String) (qty : Nat) :
    List ItemStack :=
  (fillExisting name inventory qty).1 ++ newStacks name (fillExisting name inventory qty).2

/-- Total quantity held across all stacks of a given name. -/
def sumQty (name : String) : List ItemStack → Nat
  | [] => 0
  | s :: rest => (if s.name = name then s.qty else 0) + sumQty name rest

/-- The player dict created by `start_game` (lines 82-92) and mutated in
place by every route. -/
structure Player where
  name : String
  health : Nat
  max_health : Nat
  xp : Nat
  xp_to_next : Nat
  level : Nat
  credits : Nat
  inventory : List ItemStack
  plasma_durability : Nat
deriving DecidableEq

/-- The node dict (lines 94-98); never mutated by the modelled routes. -/
structure Node where
  id : String
  name : String
  desc : String
deriving DecidableEq

/-- An enemy dict generated by `start_adventure` (lines 340-348). -/
structure Enemy where
  id : Nat
  name : String
  health : Nat
  max_health : Nat
  attack : Nat
  level : Nat
  credit_reward : Nat
deriving DecidableEq

/-- An unclaimed-loot entry `{"name": ..., "count": ...}` (lines 354-358);
`claim_loot` reads `qty` with fallback to `count`, so one field. -/
structure LootEntry where
  name : String
  qty : Nat
deriving DecidableEq

/-- A session dict (lines 100-105).  The combat dict holds only the key
`"enemies"`, so `combat` is modelled as `Option (List Enemy)`; a session
starts without a `"messages"` key, which reads as the empty list. -/
structure Session where
  player : Player
  node : Node
  combat : Option (List Enemy)
  unclaimed_loot : List LootEntry
  messages : List String
deriving DecidableEq

/-- The fresh player of `start_game` (lines 82-92). -/
def start_player : Player :=
  { name := "Traveler", health := 100, max_health := 100, xp := 0,
    xp_to_next := 50, level := 1, credits := 0, inventory := [],
    plasma_durability := 0 }

/-- The starting node (lines 94-98). -/
def terra : Node :=
  { id := "terra", name := "Terra",
    desc := "The home planet. Your journey begins here." }

/-- An `{ok, msg}` response body. -/
structure CmdResult where
  ok : Bool
  msg : String
deriving DecidableEq

/-- The `deposit_scrap` branch of `run_command` (lines 137-161). -/
def deposit_scrap (s : Session) (scrap_type : String) : CmdResult × Session :=
  if scrap_type = "Scrap" ∨ scrap_type = "Iron Scrap" then
    let rate : Nat := if scrap_type = "Scrap" then 2 else 5
    let total := sumQty scrap_type s.player.inventory
    let p := { s.player with
      inventory := s.player.inventory.filter (fun i => ¬ i.name = scrap_type),
      credits := s.player.credits + total * rate }
    ({ ok := true,
       msg := "Deposited " ++ toString total ++ " " ++ scrap_type ++ " for " ++
         toString (total * rate) ++ " credits." },
     { s with player := p })
  else
    ({ ok := false, msg := "Invalid scrap type." }, s)

/-- Model of `heal_player` (lines 186-199). -/
def heal_player (s : Session) : Session :=
  { s with player :=
    { s.player with health := min s.player.max_health (s.player.health + 15) } }

/-- The price dict of `shop_buy` (lines 209-219). -/
def PRICES : List (String × Nat) :=
  [("Medpack", 25), ("Nano Repair Kit", 50), ("Energy Cell", 10),
   ("Charge Cell", 5), ("Armor", 80), ("Energy Shield", 100),
   ("Weapon", 60), ("Blaster", 90), ("Plasma Blaster", 90)]

/-- Model of `shop_buy` (lines 201-246). -/
def shop_buy (s : Session) (item_name : String) : CmdResult × Session :=
  match PRICES.lookup item_name with
  | none => ({ ok := false, msg := item_name ++ " cannot be bought here." }, s)
  | some cost =>
    if s.player.credits < cost then
      ({ ok := false, msg := "Not enough credits." }, s)
    else
      let p := { s.player with
        credits := s.player.credits - cost,
        inventory := s.player.inventory ++ [{ name := item_name, qty := 1 }] }
      let p := if item_name = "Plasma Blaster"
        then { p with plasma_durability := 2 } else p
      ({ ok := true,
         msg := "Purchased " ++ item_name ++ " for " ++ toString cost ++ " credits!" },
       { s with player := p })

/-- The loot table of `search` (lines 270-276). -/
def loot_table : List (String × Nat) :=
  [("Scrap", 1), ("Iron Scrap", 1), ("Energy Cell", 1),
   ("Nano Repair Kit", 1), ("Medpack", 1)]

/-- The result body of `search` (message strings elided). -/
structure SearchResult where
  ok : Bool
  items : List ItemStack
  credits_gained : Nat
deriving DecidableEq

/-- The roll loop of `search` (lines 281-286): one iteration per random
draw, stopping once the inventory reaches capacity mid-draw. -/
def searchLoop (inv : List ItemStack) :
    List (String × Nat) → List ItemStack × List ItemStack
  | [] => (inv, [])
  | (name, qty) :: rest =>
    if MAX_INVENTORY_SLOTS ≤ inv.length then (inv, [])
    else
      let inv' := add_stacked_item inv name qty
      ((searchLoop inv' rest).1,
        { name := name, qty := qty } :: (searchLoop inv' rest).2)

/-- Model of `search` (lines 250-302).  The random draws (`random.randint(1, 2)`
rolls, each `random.choice(loot_table)`) are passed as the list `draws`
of chosen table entries, and `random.randint(5, 25)` as `bonus`; theorems
constrain them to the ranges the source draws from where relevant. -/
def search (s : Session) (draws : List (String × Nat)) (bonus : Nat) :
    SearchResult × Session :=
  if MAX_INVENTORY_SLOTS ≤ s.player.inventory.length then
    ({ ok := false, items := [], credits_gained := 0 }, s)
  else
    let inv' := (searchLoop s.player.inventory draws).1
    let found := (searchLoop s.player.inventory draws).2
    let p := { s.player with
      inventory := inv',
      credits := s.player.credits + bonus }
    ({ ok := true, items := found, credits_gained := bonus },
     { s with player := p })

/-- Message appended at lines 318-320. -/
def plasmaWarnMsg : String :=
  "⚠️ Your Plasma Blaster will break after this adventure unless repaired with a Nano Repair Kit."

/-- Message appended at line 332. -/
def plasmaBreakMsg : String :=
  "💥 Your Plasma Blaster breaks!"

/-- The Plasma Blaster durability block of `start_adventure`
(lines 312-332): both the warning branch and the decrement branch run
when durability is 1 (the two `if`s are sequential, not exclusive). -/
def applyPlasmaDurability (p : Player) (msgs : List String) :
    Player × List String :=
  if p.inventory.any (fun i => i.name == "Plasma Blaster") then
    let msgs1 := if p.plasma_durability = 1 then msgs ++ [plasmaWarnMsg] else msgs
    if 0 < p.plasma_durability then
      let p1 := { p with plasma_durability := p.plasma_durability - 1 }
      if p1.plasma_durability = 0 then
        ({ p1 with inventory :=
            p1.inventory.filter (fun i => ¬ i.name = "Plasma Blaster") },
         msgs1 ++ [plasmaBreakMsg])
      else (p1, msgs1)
    else (p, msgs1)
  else (p, msgs)

/-- One enemy dict of `start_adventure` (lines 338-348). -/
def mkEnemy (i : Nat) (level : Nat) : Enemy :=
  { id := i, name := "Raider L" ++ toString level,
    health := 40 + level * 10, max_health := 40 + level * 10,
    attack := 8 + level * 2, level := level,
    credit_reward := 10 + level * 5 }

/-- Model of `start_adventure` (lines 304-365).  The random draws are passed as
parameters: `levels` is the list of `random.randint(player.level,
player.level + 1)` draws (one per enemy, `random.randint(1, 2)` of them)
and `lootCredits`/`lootScrap`/`lootIron` are the three loot rolls. -/
def start_adventure (s : Session) (levels : List Nat)
    (lootCredits lootScrap lootIron : Nat) : Session × List Enemy :=
  let pd := applyPlasmaDurability s.player s.messages
  let enemies := (List.range levels.length).zip levels |>.map
    (fun x => mkEnemy x.1 x.2)
  let loot : List LootEntry :=
    [{ name := "Credits", qty := lootCredits },
     { name := "Scrap", qty := lootScrap },
     { name := "Iron Scrap", qty := lootIron }]
  ({ s with
      player := pd.1, messages := pd.2,
      combat := some enemies, unclaimed_loot := loot }, enemies)

/-- The failure modes of `attack_enemy` (HTTPExceptions at lines 380
and 392; the session-not-found case is the transport layer's). -/
inductive AttackError where
  | noActiveCombat
  | invalidEnemyId
deriving DecidableEq

/-- The response body of `attack_enemy` (event strings elided; the
victory return carries no `player_dead` key, modelled as `false`). -/
structure AttackResult where
  combat_won : Bool
  player_dead : Bool
  loot : List LootEntry
deriving DecidableEq

/-- The target scan and damage of `attack_enemy` (lines 385-411): find
the first enemy whose stable `id` matches, floor its health at 0, and if
it died remove it from the roster and report its credit reward (0 when
it survives; granting a reward of 0 leaves credits unchanged, matching
the `if credit_reward > 0` guard).  `none` when no enemy matches. -/
def hitEnemy (enemy_id : Nat) (dmg : Nat) :
    List Enemy → Option (List Enemy × Nat)
  | [] => none
  | e :: rest =>
    if e.id = enemy_id then
      if e.health - dmg = 0 then some (rest, e.credit_reward)
      else some ({ e with health := e.health - dmg } :: rest, 0)
    else
      match hitEnemy enemy_id dmg rest with
      | none => none
      | some (rest', c) => some (e :: rest', c)

/-- Model of `attack_enemy` (lines 367-445).  `random.choice(enemies)` picks the
counter-attacking enemy, but that choice only decides which name appears
in the (elided) event string — the counter-attack damage
`max(4, int(attack * 0.40))` depends only on the player's attack
argument, so the state transition is deterministic.  `int(attack * 0.40)`
is `floor(0.4 * attack)`, i.e. `2 * attack / 5` in `Nat`. -/
def attack_enemy (s : Session) (enemy_id : Nat) (attack : Nat) :
    Except AttackError (AttackResult × Session) :=
  match s.combat with
  | none => .error .noActiveCombat
  | some enemies =>
    match hitEnemy enemy_id attack enemies with
    | none => .error .invalidEnemyId
    | some (enemies', reward) =>
      let p := { s.player with credits := s.player.credits + reward }
      if enemies'.isEmpty then
        .ok ({ combat_won := true, player_dead := false,
               loot := s.unclaimed_loot },
             { s with player := p, combat := none })
      else
        let edmg := max 4 (2 * attack / 5)
        let p' := { p with health := p.health - edmg }
        .ok ({ combat_won := false, player_dead := p'.health = 0, loot := [] },
             { s with player := p', combat := some enemies' })

/-- A sequence of `attack_enemy` calls against one session, each given as
an `(enemy_id, attack)` pair; stops at the first failure. -/
def runAttacks (s : Session) : List (Nat × Nat) → Except AttackError Session
  | [] => .ok s
  | (eid, atk) :: rest =>
    match attack_enemy s eid atk with
    | .error e => .error e
    | .ok (_, s') => runAttacks s' rest

/-- The live enemy roster a session's combat holds (empty when absent). -/
def liveEnemies (s : Session) : List Enemy :=
  match s.combat with
  | none => []
  | some es => es

/-- One iteration of the claim loop of `claim_loot` (lines 460-469). -/
def claimOne (p : Player) (e : LootEntry) : Player :=
  if e.name = "Credits" then { p with credits := p.credits + e.qty }
  else if e.name = "Scrap" ∨ e.name = "Iron Scrap" then
    { p with inventory := add_stacked_item p.inventory e.name e.qty }
  else { p with inventory := p.inventory ++ [{ name := e.name, qty := e.qty }] }

/-- Model of `claim_loot` (lines 447-476): moves every manifest entry into the
player, clears the manifest, and returns the processed entries as
`claimed`. -/
def claim_loot (s : Session) : List LootEntry × Session :=
  (s.unclaimed_loot,
   { s with
      player := s.unclaimed_loot.foldl claimOne s.player,
      unclaimed_loot := [] })

/-- The fresh session of `start_game` (lines 100-105). -/
def start_session : Session :=
  { player := start_player, node := terra, combat := none,
    unclaimed_loot := [], messages := [] }

/-- A session whose inventory already holds MAX_INVENTORY_SLOTS stacks. -/
def fullInvSession : Session :=
  { start_session with player := { start_player with
      credits := 40,
      inventory := [{ name := "Medpack", qty := 1 }, { name := "Armor", qty := 1 },
        { name := "Weapon", qty := 1 }, { name := "Energy Cell", qty := 1 },
        { name := "Scrap", qty := 3 }, { name := "Iron Scrap", qty := 2 }] } }

/-- A session in combat against a single level-1 raider (50 health,
15 credit reward) with a pre-generated loot manifest. -/
def combatSession : Session :=
  { start_session with
      combat := some [mkEnemy 0 1],
      unclaimed_loot := [{ name := "Credits", qty := 30 },
        { name := "Scrap", qty := 2 }] }

/-- The session reached from `combatSession` by one killing blow of 50. -/
def victorySession : Session :=
  { combatSession with
      player := { start_player with credits := 15 }, combat := none }

/-- A session in combat against two raiders. -/
def duelSession : Session :=
  { start_session with combat := some [mkEnemy 0 1, mkEnemy 1 2] }

/-- The session reached from `duelSession` by one attack of 10 on the
first raider: it drops to 40 health, the counter-attack hits for 4. -/
def duelAfter : Session :=
  { duelSession with
      player := { start_player with health := 96 },
      combat := some [{ mkEnemy 0 1 with health := 40 }, mkEnemy 1 2] }

/-- A session holding 3 + 2 Scrap across two stacks. -/
def scrapSession : Session :=
  { start_session with player := { start_player with
      inventory := [{ name := "Scrap", qty := 3 }, { name := "Medpack", qty := 1 },
        { name := "Scrap", qty := 2 }] } }

/-- A session holding a Plasma Blaster on its last durability charge. -/
def blasterSession : Session :=
  { start_session with player := { start_player with
      inventory := [{ name := "Plasma Blaster", qty := 1 }],
      plasma_durability := 1 } }

theorem sumQty_append (name : String) (a b : List ItemStack) :
    sumQty name (a ++ b) = sumQty name a + sumQty name b := by
  induction a with
  | nil => simp [sumQty]
  | cons s rest ih => simp [sumQty, ih]; omega

theorem fillExisting_rem_le (name : String) (inv : List ItemStack) (qty : Nat) :
    (fillExisting name inv qty).2 ≤ qty := by
  induction inv generalizing qty with
  | nil => simp [fillExisting]
  | cons s rest ih =>
    simp only [fillExisting]
    split
    · split
      · simp
      · simpa using (ih _).trans (by omega)
    · simpa using ih qty

theorem fillExisting_sum (name : String) (inv : List ItemStack) (qty : Nat) :
    sumQty name (fillExisting name inv qty).1 + (fillExisting name inv qty).2 =
      sumQty name inv + qty := by
  induction inv generalizing qty with
  | nil => simp [fillExisting]
  | cons s rest ih =>
    simp only [fillExisting]
    split
    · rename_i hcond
      split
      · rename_i hz
        have hmin : min (SCRAP_STACK_SIZE - s.qty) qty ≤ qty := Nat.min_le_right _ _
        simp [sumQty, hcond.1]
        omega
      · rename_i hz
        have hmin : min (SCRAP_STACK_SIZE - s.qty) qty ≤ qty := Nat.min_le_right _ _
        have := ih (qty - min (SCRAP_STACK_SIZE - s.qty) qty)
        simp [sumQty, hcond.1] at this ⊢
        omega
    · rename_i hcond
      have := ih qty
      by_cases hn : s.name = name
      · simp [sumQty, hn] at this ⊢
        omega
      · simp [sumQty, hn] at this ⊢
        omega

theorem fillExisting_bound (name : String) (inv : List ItemStack) (qty : Nat)
    (h : ∀ s ∈ inv, s.name = name → s.qty ≤ SCRAP_STACK_SIZE) :
    ∀ s ∈ (fillExisting name inv qty).1, s.name = name → s.qty ≤ SCRAP_STACK_SIZE := by
  induction inv generalizing qty with
  | nil => simp [fillExisting]
  | cons s rest ih =>
    have hrest : ∀ t ∈ rest, t.name = name → t.qty ≤ SCRAP_STACK_SIZE :=
      fun t ht => h t (List.mem_cons_of_mem _ ht)
    simp only [fillExisting]
    split
    · rename_i hcond
      have hfill : s.qty + min (SCRAP_STACK_SIZE - s.qty) qty ≤ SCRAP_STACK_SIZE := by
        have := Nat.min_le_left (SCRAP_STACK_SIZE - s.qty) qty
        omega
      split
      · intro t ht
        rcases List.mem_cons.mp ht with hcase | hcase
        · intro _; simpa [hcase] using hfill
        · exact hrest t hcase
      · intro t ht
        rcases List.mem_cons.mp ht with hcase | hcase
        · intro _; simpa [hcase] using hfill
        · exact ih _ hrest t hcase
    · intro t ht
      rcases List.mem_cons.mp ht with hcase | hcase
      · exact hcase ▸ h s (List.mem_cons_self _ _)
      · exact ih qty hrest t hcase

theorem fillExisting_filter (name m : String) (hm : m ≠ name)
    (inv : List ItemStack) (qty : Nat) :
    (fillExisting name inv qty).1.filter (fun s => s.name == m) =
      inv.filter (fun s => s.name == m) := by
  induction inv generalizing qty with
  | nil => simp [fillExisting]
  | cons s rest ih =>
    simp only [fillExisting]
    split
    · rename_i hcond
      have hs : ¬ (s.name == m) = true := by
        simp [hcond.1]
        exact fun hc => hm hc.symm
      split
      · simp [List.filter, hs]
      · simp [List.filter, hs, ih]
    · by_cases hn : (s.name == m) = true
      · simp [List.filter, hn, ih]
      · simp [List.filter, hn, ih]

theorem newStacks_sum (name : String) (qty : Nat) :
    sumQty name (newStacks name qty) = qty := by
  induction qty using Nat.strong_induction_on with
  | _ q ih =>
    rw [newStacks]
    split
    · rename_i hz
      simp [sumQty, hz]
    · rename_i hz
      have h1 : 0 < min SCRAP_STACK_SIZE q := by
        simp [SCRAP_STACK_SIZE]; omega
      have h2 : min SCRAP_STACK_SIZE q ≤ q := Nat.min_le_right _ _
      rw [sumQty]
      rw [ih (q - min SCRAP_STACK_SIZE q) (by omega)]
      rw [if_pos rfl]
      dsimp only
      omega

theorem newStacks_names (name : String) (qty : Nat) :
    ∀ s ∈ newStacks name qty, s.name = name ∧ s.qty ≤ SCRAP_STACK_SIZE := by
  induction qty using Nat.strong_induction_on with
  | _ q ih =>
    rw [newStacks]
    split
    · simp
    · rename_i hz
      have h1 : 0 < min SCRAP_STACK_SIZE q := by
        simp [SCRAP_STACK_SIZE]; omega
      intro s hs
      rcases List.mem_cons.mp hs with hcase | hcase
      · subst hcase
        exact ⟨rfl, Nat.min_le_left _ _⟩
      · exact ih (q - min SCRAP_STACK_SIZE q) (by omega) s hcase

theorem add_stacked_item_sum (inv : List ItemStack) (name : String) (qty : Nat) :
    sumQty name (add_stacked_item inv name qty) = sumQty name inv + qty := by
  unfold add_stacked_item
  rw [sumQty_append, newStacks_sum]
  have := fillExisting_sum name inv qty
  omega

theorem add_stacked_item_bound (inv : List ItemStack) (name : String) (qty : Nat)
    (h : ∀ s ∈ inv, s.name = name → s.qty ≤ SCRAP_STACK_SIZE) :
    ∀ s ∈ add_stacked_item inv name qty, s.name = name → s.qty ≤ SCRAP_STACK_SIZE := by
  unfold add_stacked_item
  intro s hs
  rcases List.mem_append.mp hs with hcase | hcase
  · exact fillExisting_bound name inv qty h s hcase
  · intro _; exact (newStacks_names name _ s hcase).2

theorem add_stacked_item_filter (inv : List ItemStack) (name m : String) (qty : Nat)
    (hm : m ≠ name) :
    (add_stacked_item inv name qty).filter (fun s => s.name == m) =
      inv.filter (fun s => s.name == m) := by
  unfold add_stacked_item
  rw [List.filter_append, fillExisting_filter name m hm]
  have hnil : (newStacks name (fillExisting name inv qty).2).filter
      (fun s => s.name == m) = [] := by
    apply List.filter_eq_nil_iff.mpr
    intro s hs
    have := (newStacks_names name _ s hs).1
    simp [this]
    exact fun hc => hm hc.symm
  rw [hnil, List.append_nil]

/-- C1: For every inventory satisfying the data-model stack invariant
(every stack of the item's name holds at most `SCRAP_STACK_SIZE = 64`
units) and every finite sequence of `add_stacked_item` calls with the
same item name, each with positive quantity: after all calls no stack of
that name exceeds 64 units, the total quantity held under that name
equals the initial total plus the sum of the added quantities, and for
every other name the stacks of that other name (names, quantities and
order) are exactly as before — other names are never merged into. -/
theorem addStacked_stacking_invariant (name : String) (inv : List ItemStack)
    (qs : List Nat) (hq : ∀ q ∈ qs, 0 < q)
    (hwf : ∀ s ∈ inv, s.name = name → s.qty ≤ SCRAP_STACK_SIZE) :
    (∀ s ∈ qs.foldl (fun acc q => add_stacked_item acc name q) inv,
        s.name = name → s.qty ≤ SCRAP_STACK_SIZE) ∧
    sumQty name (qs.foldl (fun acc q => add_stacked_item acc name q) inv) =
        sumQty name inv + qs.sum ∧
    (∀ m, m ≠ name →
      (qs.foldl (fun acc q => add_stacked_item acc name q) inv).filter
          (fun s => s.name == m) = inv.filter (fun s => s.name == m)) := by
  induction qs generalizing inv with
  | nil => exact ⟨hwf, by simp, fun m _ => rfl⟩
  | cons q rest ih =>
    have hq' : ∀ x ∈ rest, 0 < x := fun x hx => hq x (List.mem_cons_of_mem _ hx)
    have hwf' := add_stacked_item_bound inv name q hwf
    obtain ⟨hb, hsum, hfil⟩ := ih (add_stacked_item inv name q) hq' hwf'
    refine ⟨hb, ?_, ?_⟩
    · rw [List.foldl_cons] at *
      rw [hsum, add_stacked_item_sum]
      simp [List.sum_cons]
      omega
    · intro m hmn
      rw [List.foldl_cons, hfil m hmn, add_stacked_item_filter inv name m q hmn]

/-- Concrete instance of C1: one call adding 10 "Scrap" to an inventory
holding a partial stack of 60 fills it to 64 and opens a stack of 6. -/
theorem addStacked_stacking_invariant_witness :
    sumQty "Scrap"
        ([10].foldl (fun acc q => add_stacked_item acc "Scrap" q)
          [{ name := "Scrap", qty := 60 }]) =
      sumQty "Scrap" [({ name := "Scrap", qty := 60 } : ItemStack)] + [10].sum := by
  exact (addStacked_stacking_invariant "Scrap" [{ name := "Scrap", qty := 60 }]
    [10] (by decide) (by decide)).2.1

/-- C10: For every session whose player satisfies the data-model health
invariant (health ≤ max_health), `heal_player` sets health to
`min(max_health, health + 15)`: health does not decrease, increases by
at most 15, never exceeds max_health, and credits, inventory,
plasma_durability, level and xp are unchanged. -/
theorem heal_player_spec (s : Session)
    (h : s.player.health ≤ s.player.max_health) :
    (heal_player s).player.health
        = min s.player.max_health (s.player.health + 15) ∧
    s.player.health ≤ (heal_player s).player.health ∧
    (heal_player s).player.health ≤ s.player.max_health ∧
    (heal_player s).player.health ≤ s.player.health + 15 ∧
    (heal_player s).player.credits = s.player.credits ∧
    (heal_player s).player.inventory = s.player.inventory ∧
    (heal_player s).player.plasma_durability = s.player.plasma_durability ∧
    (heal_player s).player.level = s.player.level ∧
    (heal_player s).player.xp = s.player.xp := by
  refine ⟨rfl, ?_, ?_, ?_, rfl, rfl, rfl, rfl, rfl⟩ <;>
    simp only [heal_player] <;> omega

/-- Concrete instance of C10: healing a fresh player at 95/100 health
caps at 100. -/
theorem heal_player_spec_witness :
    (heal_player { start_session with
      player := { start_player with health := 95 } }).player.health = 100 := by
  have h := heal_player_spec
    { start_session with player := { start_player with health := 95 } }
    (by decide)
  rw [h.1]
  decide

/-- C6: Depositing "Scrap" credits exactly (total Scrap units across all
stacks) * 2 and removes every "Scrap" stack; analogously with rate 5 for
"Iron Scrap"; any other scrap_type is rejected as an invalid kind with
no mutation at all. -/
theorem deposit_scrap_spec (s : Session) :
    ((deposit_scrap s "Scrap").2.player.credits
        = s.player.credits + sumQty "Scrap" s.player.inventory * 2 ∧
     (deposit_scrap s "Scrap").2.player.inventory
        = s.player.inventory.filter (fun i => ¬ i.name = "Scrap") ∧
     (∀ st ∈ (deposit_scrap s "Scrap").2.player.inventory, ¬ st.name = "Scrap") ∧
     (deposit_scrap s "Scrap").1.ok = true) ∧
    ((deposit_scrap s "Iron Scrap").2.player.credits
        = s.player.credits + sumQty "Iron Scrap" s.player.inventory * 5 ∧
     (deposit_scrap s "Iron Scrap").2.player.inventory
        = s.player.inventory.filter (fun i => ¬ i.name = "Iron Scrap") ∧
     (∀ st ∈ (deposit_scrap s "Iron Scrap").2.player.inventory,
        ¬ st.name = "Iron Scrap") ∧
     (deposit_scrap s "Iron Scrap").1.ok = true) ∧
    (∀ t, ¬ t = "Scrap" → ¬ t = "Iron Scrap" →
      deposit_scrap s t = ({ ok := false, msg := "Invalid scrap type." }, s)) := by
  refine ⟨⟨?_, ?_, ?_, ?_⟩, ⟨?_, ?_, ?_, ?_⟩, ?_⟩
  · simp [deposit_scrap]
  · simp [deposit_scrap]
  · intro st hst
    simp [deposit_scrap, List.mem_filter] at hst
    exact hst.2
  · simp [deposit_scrap]
  · simp [deposit_scrap]
  · simp [deposit_scrap]
  · intro st hst
    simp [deposit_scrap, List.mem_filter] at hst
    exact hst.2
  · simp [deposit_scrap]
  · intro t h1 h2
    unfold deposit_scrap
    rw [if_neg]
    rintro (h | h) <;> contradiction

/-- Concrete instance of C6: depositing 3 + 2 Scrap yields 10 credits,
and depositing "Rock" mutates nothing. -/
theorem deposit_scrap_spec_witness :
    (deposit_scrap scrapSession "Scrap").2.player.credits = 10 ∧
    deposit_scrap scrapSession "Rock"
      = ({ ok := false, msg := "Invalid scrap type." }, scrapSession) := by
  constructor
  · rw [(deposit_scrap_spec scrapSession).1.1]
    decide
  · exact (deposit_scrap_spec scrapSession).2.2 "Rock" (by decide) (by decide)

/-- C7: Purchasing an item whose price exceeds the current credits fails
with the insufficient-funds message and returns the session unchanged —
credits, inventory and plasma_durability included; a name absent from
the price table fails with the not-purchasable message and no
mutation. -/
theorem shop_buy_failure_no_mutation (s : Session) (item_name : String) :
    (PRICES.lookup item_name = none →
      shop_buy s item_name
        = ({ ok := false, msg := item_name ++ " cannot be bought here." }, s)) ∧
    (∀ cost, PRICES.lookup item_name = some cost → s.player.credits < cost →
      shop_buy s item_name
        = ({ ok := false, msg := "Not enough credits." }, s)) := by
  constructor
  · intro h
    unfold shop_buy
    rw [h]
  · intro cost hc hlt
    unfold shop_buy
    rw [hc]
    dsimp only
    rw [if_pos hlt]

/-- Concrete instance of C7: a fresh player with 0 credits cannot buy a
Medpack (cost 25) and nothing changes. -/
theorem shop_buy_failure_witness :
    shop_buy start_session "Medpack"
      = ({ ok := false, msg := "Not enough credits." }, start_session) := by
  exact (shop_buy_failure_no_mutation start_session "Medpack").2 25 rfl (by decide)

/-- C9: `claim_loot` returns the whole unclaimed manifest and clears it,
so an immediate second call returns an empty claimed list and leaves the
player (credits and inventory) and the whole session unchanged: the
manifest's items and credits are granted only on the first call. -/
theorem claim_loot_twice (s : Session) :
    (claim_loot s).1 = s.unclaimed_loot ∧
    (claim_loot s).2.unclaimed_loot = [] ∧
    (claim_loot (claim_loot s).2).1 = [] ∧
    (claim_loot (claim_loot s).2).2 = (claim_loot s).2 := by
  exact ⟨rfl, rfl, rfl, rfl⟩

/-- C4, counterexample: with a full inventory `search` returns the
InventoryFull outcome without touching the session — in particular the
credit bonus is NOT granted, refuting the claim that the bonus is still
credited on this path: the source returns at lines 260-267 before the
bonus roll at line 289, so credits stay 40 and `credits_gained` is 0
even though the bonus roll parameter is 17. -/
theorem search_full_no_bonus_cex :
    (search fullInvSession [("Scrap", 1)] 17).2.player.credits = 40 ∧
    (search fullInvSession [("Scrap", 1)] 17).1.credits_gained = 0 ∧
    (search fullInvSession [("Scrap", 1)] 17).2 = fullInvSession := by
  exact ⟨rfl, rfl, rfl⟩

/-- C4 (amended): For every session whose inventory already holds
MAX_INVENTORY_SLOTS (=6) stacks, `search` returns the InventoryFull
outcome with zero items added, zero credits gained, and the session —
credits included — entirely unchanged; the credit bonus is not granted
on this path. -/
theorem search_full_inventory_no_mutation (s : Session)
    (draws : List (String × Nat)) (bonus : Nat)
    (h : MAX_INVENTORY_SLOTS ≤ s.player.inventory.length) :
    search s draws bonus
      = ({ ok := false, items := [], credits_gained := 0 }, s) := by
  unfold search
  rw [if_pos h]

/-- Concrete instance of the amended C4. -/
theorem search_full_inventory_witness :
    search fullInvSession [("Medpack", 1)] 9
      = ({ ok := false, items := [], credits_gained := 0 }, fullInvSession) := by
  exact search_full_inventory_no_mutation fullInvSession [("Medpack", 1)] 9 (by decide)

theorem applyPlasmaDurability_at_one (p : Player) (msgs : List String)
    (hw : p.inventory.any (fun i => i.name == "Plasma Blaster") = true)
    (hd : p.plasma_durability = 1) :
    applyPlasmaDurability p msgs
      = ({ p with
            plasma_durability := 0,
            inventory := p.inventory.filter (fun i => ¬ i.name = "Plasma Blaster") },
         msgs ++ [plasmaWarnMsg, plasmaBreakMsg]) := by
  simp [applyPlasmaDurability, hw, hd]

theorem applyPlasmaDurability_ge_two (p : Player) (msgs : List String)
    (hw : p.inventory.any (fun i => i.name == "Plasma Blaster") = true)
    (hd : 2 ≤ p.plasma_durability) :
    applyPlasmaDurability p msgs
      = ({ p with plasma_durability := p.plasma_durability - 1 }, msgs) := by
  have h1 : ¬ p.plasma_durability = 1 := by omega
  have h2 : 0 < p.plasma_durability := by omega
  have h3 : ¬ (p.plasma_durability - 1 = 0) := by omega
  simp [applyPlasmaDurability, hw, h1, h2, h3]

theorem applyPlasmaDurability_at_zero (p : Player) (msgs : List String)
    (hd : p.plasma_durability = 0) :
    applyPlasmaDurability p msgs = (p, msgs) := by
  unfold applyPlasmaDurability
  split
  · simp [hd]
  · rfl

/-- C5: When the player holds the Plasma Blaster as `start_adventure`
runs: at durability 1 the warning message is appended and — the source's
two `if`s being sequential, not exclusive — the durability is
decremented to 0, so the weapon is removed from the inventory and the
weapon-breaks message is appended as well; at durability ≥ 2 the
durability is decremented with no removal and no message; at durability
0 the player and messages are untouched. -/
theorem start_adventure_plasma_durability (s : Session) (levels : List Nat)
    (lc ls li : Nat)
    (hw : s.player.inventory.any (fun i => i.name == "Plasma Blaster") = true) :
    (s.player.plasma_durability = 1 →
      (start_adventure s levels lc ls li).1.player.plasma_durability = 0 ∧
      (start_adventure s levels lc ls li).1.player.inventory
        = s.player.inventory.filter (fun i => ¬ i.name = "Plasma Blaster") ∧
      (start_adventure s levels lc ls li).1.messages
        = s.messages ++ [plasmaWarnMsg, plasmaBreakMsg]) ∧
    (2 ≤ s.player.plasma_durability →
      (start_adventure s levels lc ls li).1.player.plasma_durability
        = s.player.plasma_durability - 1 ∧
      (start_adventure s levels lc ls li).1.player.inventory
        = s.player.inventory ∧
      (start_adventure s levels lc ls li).1.messages = s.messages) ∧
    (s.player.plasma_durability = 0 →
      (start_adventure s levels lc ls li).1.player = s.player ∧
      (start_adventure s levels lc ls li).1.messages = s.messages) := by
  refine ⟨fun hd => ?_, fun hd => ?_, fun hd => ?_⟩
  · rw [start_adventure]
    rw [applyPlasmaDurability_at_one s.player s.messages hw hd]
    exact ⟨rfl, rfl, rfl⟩
  · rw [start_adventure]
    rw [applyPlasmaDurability_ge_two s.player s.messages hw hd]
    exact ⟨rfl, rfl, rfl⟩
  · rw [start_adventure]
    rw [applyPlasmaDurability_at_zero s.player s.messages hd]
    exact ⟨rfl, rfl⟩

/-- Concrete instance of C5: starting an adventure with the Plasma
Blaster at its last charge warns, breaks and removes the weapon. -/
theorem start_adventure_plasma_witness :
    (start_adventure blasterSession [1] 30 2 1).1.player.plasma_durability = 0 ∧
    (start_adventure blasterSession [1] 30 2 1).1.player.inventory = [] ∧
    (start_adventure blasterSession [1] 30 2 1).1.messages
      = [plasmaWarnMsg, plasmaBreakMsg] := by
  have h := (start_adventure_plasma_durability blasterSession [1] 30 2 1
    (by decide)).1 rfl
  refine ⟨h.1, ?_, ?_⟩
  · rw [h.2.1]
    decide
  · rw [h.2.2]
    rfl

theorem hitEnemy_not_found (enemy_id dmg : Nat) (es : List Enemy)
    (h : ∀ e ∈ es, ¬ e.id = enemy_id) :
    hitEnemy enemy_id dmg es = none := by
  induction es with
  | nil => rfl
  | cons e rest ih =>
    unfold hitEnemy
    rw [if_neg (h e (List.mem_cons_self _ _))]
    rw [ih (fun x hx => h x (List.mem_cons_of_mem _ hx))]

/-- C8: `attack_enemy` fails with NoActiveCombat whenever the session
has no combat, and with InvalidEnemyId whenever the combat's roster has
no live enemy with the requested id.  On both paths the source raises
before its first assignment, so no session state is produced or
mutated — modelled by the `Except.error` results carrying no session. -/
theorem attack_enemy_failure_paths (s : Session) (enemy_id attack : Nat) :
    (s.combat = none →
      attack_enemy s enemy_id attack = .error .noActiveCombat) ∧
    (∀ es, s.combat = some es → (∀ e ∈ es, ¬ e.id = enemy_id) →
      attack_enemy s enemy_id attack = .error .invalidEnemyId) := by
  constructor
  · intro h
    unfold attack_enemy
    rw [h]
  · intro es hc hne
    unfold attack_enemy
    rw [hc]
    dsimp only
    rw [hitEnemy_not_found enemy_id attack es hne]

/-- Concrete instance of C8: attacking with no combat fails, and
attacking a roster that lacks the requested id fails. -/
theorem attack_enemy_failure_witness :
    attack_enemy start_session 0 10 = .error .noActiveCombat ∧
    attack_enemy duelSession 7 10 = .error .invalidEnemyId := by
  constructor
  · exact (attack_enemy_failure_paths start_session 0 10).1 rfl
  · exact (attack_enemy_failure_paths duelSession 7 10).2
      [mkEnemy 0 1, mkEnemy 1 2] rfl (by decide)

/-- C3: In every successful `attack_enemy` call after which at least one
enemy survives (`combat_won = false`), exactly one counter-attack hits
the player, for `max(4, floor(attack * 0.40))` damage — a function of
the player's `attack` argument alone, independent of every enemy's
attack stat — and the player's health drops by that amount floored at 0
(`Nat` truncated subtraction). -/
theorem counterattack_damage_formula (s : Session) (enemy_id attack : Nat)
    (r : AttackResult) (s' : Session)
    (h : attack_enemy s enemy_id attack = .ok (r, s'))
    (hsurv : r.combat_won = false) :
    s'.player.health = s.player.health - max 4 (2 * attack / 5) := by
  unfold attack_enemy at h
  cases hc : s.combat with
  | none => rw [hc] at h; exact absurd h (by simp)
  | some enemies =>
    rw [hc] at h
    dsimp only at h
    cases hh : hitEnemy enemy_id attack enemies with
    | none => rw [hh] at h; exact absurd h (by simp)
    | some pr =>
      rw [hh] at h
      obtain ⟨enemies', reward⟩ := pr
      dsimp only at h
      by_cases he : enemies'.isEmpty
      · rw [if_pos he] at h
        simp only [Except.ok.injEq, Prod.mk.injEq] at h
        rw [← h.1] at hsurv
        simp at hsurv
      · rw [if_neg he] at h
        simp only [Except.ok.injEq, Prod.mk.injEq] at h
        rw [← h.2]

/-- Concrete instance of C3: an attack of 10 on the first of two raiders
leaves a survivor, and the counter-attack hits for max(4, 4) = 4. -/
theorem counterattack_damage_witness :
    duelAfter.player.health
      = duelSession.player.health - max 4 (2 * 10 / 5) := by
  exact counterattack_damage_formula duelSession 0 10
    { combat_won := false, player_dead := false, loot := [] } duelAfter rfl rfl

theorem attack_enemy_ok_shape (s : Session) (enemy_id attack : Nat)
    (r : AttackResult) (s' : Session)
    (h : attack_enemy s enemy_id attack = .ok (r, s')) :
    s'.unclaimed_loot = s.unclaimed_loot ∧
    (s'.combat = none ∨ ∃ es, s'.combat = some es ∧ ¬ es = []) := by
  unfold attack_enemy at h
  cases hc : s.combat with
  | none => rw [hc] at h; exact absurd h (by simp)
  | some enemies =>
    rw [hc] at h
    dsimp only at h
    cases hh : hitEnemy enemy_id attack enemies with
    | none => rw [hh] at h; exact absurd h (by simp)
    | some pr =>
      rw [hh] at h
      obtain ⟨enemies', reward⟩ := pr
      dsimp only at h
      by_cases he : enemies'.isEmpty
      · rw [if_pos he] at h
        simp only [Except.ok.injEq, Prod.mk.injEq] at h
        rw [← h.2]
        exact ⟨rfl, Or.inl rfl⟩
      · rw [if_neg he] at h
        simp only [Except.ok.injEq, Prod.mk.injEq] at h
        rw [← h.2]
        refine ⟨rfl, Or.inr ⟨enemies', rfl, ?_⟩⟩
        simpa [List.isEmpty_iff] using he

theorem runAttacks_loot (calls : List (Nat × Nat)) (s s' : Session)
    (h : runAttacks s calls = .ok s') :
    s'.unclaimed_loot = s.unclaimed_loot := by
  induction calls generalizing s with
  | nil =>
    simp only [runAttacks, Except.ok.injEq] at h
    rw [h]
  | cons c rest ih =>
    obtain ⟨eid, atk⟩ := c
    unfold runAttacks at h
    cases ha : attack_enemy s eid atk with
    | error e => rw [ha] at h; exact absurd h (by simp)
    | ok pr =>
      rw [ha] at h
      obtain ⟨r1, s1⟩ := pr
      dsimp only at h
      rw [ih s1 h]
      exact (attack_enemy_ok_shape s eid atk r1 s1 ha).1

theorem runAttacks_combat_shape (calls : List (Nat × Nat)) (s s' : Session)
    (hne : ¬ calls = []) (h : runAttacks s calls = .ok s') :
    s'.combat = none ∨ ∃ es, s'.combat = some es ∧ ¬ es = [] := by
  induction calls generalizing s with
  | nil => exact absurd rfl hne
  | cons c rest ih =>
    obtain ⟨eid, atk⟩ := c
    unfold runAttacks at h
    cases ha : attack_enemy s eid atk with
    | error e => rw [ha] at h; exact absurd h (by simp)
    | ok pr =>
      rw [ha] at h
      obtain ⟨r1, s1⟩ := pr
      dsimp only at h
      by_cases hr : rest = []
      · subst hr
        simp only [runAttacks, Except.ok.injEq] at h
        rw [← h]
        exact (attack_enemy_ok_shape s eid atk r1 s1 ha).2
      · exact ih s1 hr h

/-- C2: From any session with an active combat, any nonempty sequence of
successful `attack_enemy` calls that leaves no live enemy, with the
player's health still positive, ends with the combat cleared to `none`
and the pre-generated loot manifest untouched and claimable: one
`claim_loot` then yields exactly that manifest, and a second `claim_loot`
yields an empty claimed list and changes nothing, so the manifest pays
out exactly once. -/
theorem attack_victory_clears_combat (s : Session) (es : List Enemy)
    (calls : List (Nat × Nat)) (s' : Session)
    (_hactive : s.combat = some es) (hne : ¬ calls = [])
    (hrun : runAttacks s calls = .ok s')
    (hdead : liveEnemies s' = []) (_halive : 0 < s'.player.health) :
    s'.combat = none ∧
    s'.unclaimed_loot = s.unclaimed_loot ∧
    (claim_loot s').1 = s.unclaimed_loot ∧
    (claim_loot (claim_loot s').2).1 = [] ∧
    (claim_loot (claim_loot s').2).2 = (claim_loot s').2 := by
  have hl := runAttacks_loot calls s s' hrun
  have hshape := runAttacks_combat_shape calls s s' hne hrun
  have hcn : s'.combat = none := by
    rcases hshape with hn | ⟨es', hes, hne'⟩
    · exact hn
    · exfalso
      apply hne'
      unfold liveEnemies at hdead
      rw [hes] at hdead
      exact hdead
  exact ⟨hcn, hl, hl, rfl, rfl⟩

/-- Concrete instance of C2: one killing blow of 50 on the single
level-1 raider clears the combat and the manifest is claimable. -/
theorem attack_victory_witness :
    runAttacks combatSession [(0, 50)] = .ok victorySession ∧
    victorySession.combat = none ∧
    (claim_loot victorySession).1 = combatSession.unclaimed_loot := by
  refine ⟨rfl, ?_, ?_⟩
  · exact (attack_victory_clears_combat combatSession [mkEnemy 0 1] [(0, 50)]
      victorySession rfl (by simp) rfl rfl (by decide)).1
  · exact (attack_victory_clears_combat combatSession [mkEnemy 0 1] [(0, 50)]
      victorySession rfl (by simp) rfl rfl (by decide)).2.2.1

end Muforge
